import Mathlib

/-!
Verification of the statement-execution and result-mapping adapter of a
multi-tenant Snowflake SQL API client. The definitions below are a shallow
embedding of the TypeScript source (client implementation, error classes,
credential parsing); JavaScript semantics (truthiness, `||`, `??`,
out-of-range array indexing, `parseInt`) are made explicit by small helper
functions.
-/

set_option maxHeartbeats 1000000

namespace Snowflake

/-- JS truthiness of an optional string: `undefined`/`null` and `""` are falsy. -/
def optTruthy : Option String → Bool
  | none => false
  | some s => s ≠ ""

/-- JS `a || d` for an optional string `a` and a string default `d`. -/
def strOr : Option String → String → String
  | none, d => d
  | some s, d => if s = "" then d else s

/-- JS `a || b` on two optional strings: the left operand when truthy, else the right. -/
def optOr (a b : Option String) : Option String :=
  if optTruthy a then a else b

/-- JS `a || d` on an optional number: `undefined` and `0` are falsy. -/
def numOr : Option Int → Int → Int
  | none, d => d
  | some n, d => if n = 0 then d else n

/-- Scan over the suffixes of `s` for one that starts with `pat`. -/
def includesAux (pat : List Char) : List Char → Bool
  | [] => pat.isEmpty
  | c :: cs => pat.isPrefixOf (c :: cs) || includesAux pat cs

/-- JS `String.prototype.includes`: substring test. -/
def strIncludes (s pat : String) : Bool :=
  includesAux pat.toList s.toList

/-- JS `String.prototype.toLowerCase` (code points are mapped independently;
`Char.toLower` lower-cases the ASCII range the way JS does for these inputs). -/
def strToLower (s : String) : String :=
  String.mk (s.toList.map Char.toLower)

/-- JS `m?.toLowerCase().includes(pat)`: `undefined` short-circuits to a falsy value. -/
def msgIncludes (m : Option String) (pat : String) : Bool :=
  match m with
  | some s => strIncludes (strToLower s) pat
  | none => false

/-- JS `parseInt(s, 10)`: skip leading whitespace, an optional sign, then read
leading decimal digits; the result is NaN (here `none`) when no digit is found. -/
def jsParseInt (s : String) : Option Int :=
  let cs := s.toList.dropWhile (fun c => c == ' ' || c == '\t' || c == '\n' || c == '\r')
  let signed : Bool × List Char :=
    match cs with
    | '-' :: rest => (true, rest)
    | '+' :: rest => (false, rest)
    | _ => (false, cs)
  let ds := signed.2.takeWhile (fun c => c.isDigit)
  if ds.isEmpty then none
  else
    let v : Int := Int.ofNat (ds.foldl (fun a c => a * 10 + (c.toNat - 48)) 0)
    some (if signed.1 then -v else v)

/-- A JS `number | undefined` value: undefined, NaN, or an integer. -/
inductive NumU
  | undefined
  | nan
  | val (n : Int)
deriving DecidableEq

/-- `parseInt(s, 10)` as a JS number (never undefined). -/
def parseIntNum (s : String) : NumU :=
  match jsParseInt s with
  | some n => .val n
  | none => .nan

/-- JS `cell ? parseInt(cell, 10) : undefined` for an optional string cell. -/
def numField (cell : Option String) : NumU :=
  match cell with
  | some s => if s = "" then .undefined else parseIntNum s
  | none => .undefined

/-- JS `cell?.toLowerCase() === pat`: false when the cell is undefined. -/
def cellEqLower (cell : Option String) (pat : String) : Bool :=
  match cell with
  | some s => strToLower s == pat
  | none => false

/-- JS array indexing `row[i]`: `undefined` when the index is negative or
out of range. -/
def cellAt (row : List String) (i : Int) : Option String :=
  if i < 0 then none else row.get? i.toNat

/-- JS `columnMap.key ?? fallback`: the mapped index when the key is present,
else the (possibly negative) positional fallback. -/
def idxOr (cm : String → Option Nat) (key : String) (fallback : Int) : Int :=
  match cm key with
  | some i => Int.ofNat i
  | none => fallback

/-- `row[columnMap.key ?? fallback]`, the cell-access pattern of every entity mapper. -/
def colCell (cm : String → Option Nat) (row : List String) (key : String)
    (fallback : Int) : Option String :=
  cellAt row (idxOr cm key fallback)

/-- A column descriptor of `rowType`; only its `name` participates in the
column-map construction and row mapping. -/
structure ColumnMeta where
  name : String
deriving DecidableEq

/-- One entry of `resultSetMetaData.partitionInfo`. -/
structure PartitionInfo where
  rowCount : Int
  uncompressedSize : Option Int := none
  compressedSize : Option Int := none
deriving DecidableEq

/-- `ResultSetMetaData` of a statement result. -/
structure ResultSetMetaData where
  numRows : Int
  format : Option String := none
  partitionInfo : Option (List PartitionInfo) := none
  rowType : List ColumnMeta
deriving DecidableEq

/-- The statement lifecycle statuses of `entities.ts`. -/
inductive StatementStatus
  | running
  | resuming_warehouse
  | queued
  | blocked
  | success
  | failed_with_error
  | failed_with_incident
  | aborted
deriving DecidableEq

/-- A normalized `StatementResult` (the `stats` field plays no role in the
mapping logic and is omitted). -/
structure StatementResult where
  statementHandle : String
  status : StatementStatus
  resultSetMetaData : Option ResultSetMetaData := none
  data : Option (List (List String)) := none
  statementStatusUrl : Option String := none
  message : Option String := none
  sqlState : Option String := none
  code : Option String := none
deriving DecidableEq

/-- The status-inference heuristic `mapStatus(statusUrl?, message?)` of the client:
a message containing a success indicator (or both inputs falsy) classifies as
success; next a truthy status URL classifies as running; next a failure
indicator in the message classifies as failed; anything else is success. -/
def mapStatus (statusUrl : Option String) (message : Option String) : StatementStatus :=
  if msgIncludes message "success" || (!optTruthy statusUrl && !optTruthy message) then
    .success
  else if optTruthy statusUrl then
    .running
  else if msgIncludes message "failed" || msgIncludes message "error" then
    .failed_with_error
  else
    .success

/-- The record built by `buildColumnMap`: `rowType.forEach((col, index) =>
map[col.name.toLowerCase()] = index)` with `idx` the index of the first column of
`cols` in the full row type. A later assignment overwrites an earlier one, so a
lookup returns the last index whose lowercased column name equals the key. -/
def buildColumnMapFrom (cols : List ColumnMeta) (idx : Nat) (key : String) : Option Nat :=
  match cols with
  | [] => none
  | c :: rest =>
    match buildColumnMapFrom rest (idx + 1) key with
    | some j => some j
    | none => if strToLower c.name = key then some idx else none

/-- `buildColumnMap(rowType)` as a lookup function from (already lowercased)
keys to column indices. -/
def buildColumnMap (rowType : List ColumnMeta) (key : String) : Option Nat :=
  buildColumnMapFrom rowType 0 key

/-- `PaginatedResponse<T>`; absent optional fields are `none`. -/
structure PaginatedResponse (T : Type) where
  items : List T
  count : Nat
  total : Option Int := none
  hasMore : Bool
  nextPartition : Option Nat := none
deriving DecidableEq

/-- `{ items: [], count: 0, hasMore: false }`, the mapper result on degenerate input. -/
def emptyPage {T : Type} : PaginatedResponse T :=
  { items := [], count := 0, hasMore := false }

/-- The `Database` entity. -/
structure Database where
  name : String
  createdOn : Option String
  origin : Option String
  owner : Option String
  comment : Option String
  options : Option String
  retentionTime : Option String
  resourceGroup : Option String
  kind : Option String
deriving DecidableEq

/-- The per-row body of `mapShowResultToDatabases`. -/
def mapDatabaseRow (cm : String → Option Nat) (row : List String) : Database :=
  { name := strOr (colCell cm row "name" 0) ""
    createdOn := colCell cm row "created_on" 1
    origin := colCell cm row "origin" (-1)
    owner := colCell cm row "owner" (-1)
    comment := colCell cm row "comment" (-1)
    options := colCell cm row "options" (-1)
    retentionTime := colCell cm row "retention_time" (-1)
    resourceGroup := colCell cm row "resource_group" (-1)
    kind := colCell cm row "kind" (-1) }

/-- `mapShowResultToDatabases(result)`. -/
def mapShowResultToDatabases (result : StatementResult) : PaginatedResponse Database :=
  match result.data, result.resultSetMetaData with
  | some data, some md =>
    let cm := buildColumnMap md.rowType
    let databases := data.map (mapDatabaseRow cm)
    { items := databases, count := databases.length,
      total := some md.numRows, hasMore := false }
  | _, _ => emptyPage

/-- The `Schema` entity. -/
structure Schema where
  name : String
  databaseName : Option String
  createdOn : Option String
  owner : Option String
  comment : Option String
  options : Option String
  retentionTime : Option String
deriving DecidableEq

/-- The per-row body of `mapShowResultToSchemas`. -/
def mapSchemaRow (database : String) (cm : String → Option Nat) (row : List String) : Schema :=
  { name := strOr (colCell cm row "name" 0) ""
    databaseName := some database
    createdOn := colCell cm row "created_on" (-1)
    owner := colCell cm row "owner" (-1)
    comment := colCell cm row "comment" (-1)
    options := colCell cm row "options" (-1)
    retentionTime := colCell cm row "retention_time" (-1) }

/-- `mapShowResultToSchemas(result, database)`. -/
def mapShowResultToSchemas (result : StatementResult) (database : String) :
    PaginatedResponse Schema :=
  match result.data, result.resultSetMetaData with
  | some data, some md =>
    let cm := buildColumnMap md.rowType
    let schemas := data.map (mapSchemaRow database cm)
    { items := schemas, count := schemas.length,
      total := some md.numRows, hasMore := false }
  | _, _ => emptyPage

/-- The `Table` entity; `rows` and `bytes` are JS `number | undefined`. -/
structure Table where
  name : String
  databaseName : Option String
  schemaName : Option String
  kind : Option String
  createdOn : Option String
  owner : Option String
  comment : Option String
  clusterBy : Option String
  rows : NumU
  bytes : NumU
  retentionTime : Option String
  automaticClustering : Option String
  changeTracking : Option String
  isExternal : Option String
deriving DecidableEq

/-- The per-row body of `mapShowResultToTables`. -/
def mapTableRow (database schema : String) (cm : String → Option Nat)
    (row : List String) : Table :=
  { name := strOr (colCell cm row "name" 0) ""
    databaseName := some database
    schemaName := some schema
    kind := colCell cm row "kind" (-1)
    createdOn := colCell cm row "created_on" (-1)
    owner := colCell cm row "owner" (-1)
    comment := colCell cm row "comment" (-1)
    clusterBy := colCell cm row "cluster_by" (-1)
    rows := numField (colCell cm row "rows" (-1))
    bytes := numField (colCell cm row "bytes" (-1))
    retentionTime := colCell cm row "retention_time" (-1)
    automaticClustering := colCell cm row "automatic_clustering" (-1)
    changeTracking := colCell cm row "change_tracking" (-1)
    isExternal := colCell cm row "is_external" (-1) }

/-- `mapShowResultToTables(result, database, schema)`. -/
def mapShowResultToTables (result : StatementResult) (database schema : String) :
    PaginatedResponse Table :=
  match result.data, result.resultSetMetaData with
  | some data, some md =>
    let cm := buildColumnMap md.rowType
    let tables := data.map (mapTableRow database schema cm)
    { items := tables, count := tables.length,
      total := some md.numRows, hasMore := false }
  | _, _ => emptyPage

/-- The `View` entity. -/
structure View where
  name : String
  databaseName : Option String
  schemaName : Option String
  createdOn : Option String
  owner : Option String
  comment : Option String
  text : Option String
  isSecure : Option String
  isMaterialized : Option String
deriving DecidableEq

/-- The per-row body of `mapShowResultToViews`. -/
def mapViewRow (database schema : String) (cm : String → Option Nat)
    (row : List String) : View :=
  { name := strOr (colCell cm row "name" 0) ""
    databaseName := some database
    schemaName := some schema
    createdOn := colCell cm row "created_on" (-1)
    owner := colCell cm row "owner" (-1)
    comment := colCell cm row "comment" (-1)
    text := colCell cm row "text" (-1)
    isSecure := colCell cm row "is_secure" (-1)
    isMaterialized := colCell cm row "is_materialized" (-1) }

/-- `mapShowResultToViews(result, database, schema)`. -/
def mapShowResultToViews (result : StatementResult) (database schema : String) :
    PaginatedResponse View :=
  match result.data, result.resultSetMetaData with
  | some data, some md =>
    let cm := buildColumnMap md.rowType
    let views := data.map (mapViewRow database schema cm)
    { items := views, count := views.length,
      total := some md.numRows, hasMore := false }
  | _, _ => emptyPage

/-- The `Column` entity of DESCRIBE TABLE output. -/
structure Column where
  name : String
  type : String
  kind : Option String
  nullable : Bool
  defaultValue : Option String
  primaryKey : Bool
  uniqueKey : Bool
  check : Option String
  expression : Option String
  comment : Option String
  policyName : Option String
deriving DecidableEq

/-- The per-row body of `mapDescribeResultToColumns` (the source's `default`
field is `defaultValue` here). -/
def mapColumnRow (cm : String → Option Nat) (row : List String) : Column :=
  { name := strOr (colCell cm row "name" 0) ""
    type := strOr (colCell cm row "type" 1) ""
    kind := colCell cm row "kind" (-1)
    nullable := cellEqLower (colCell cm row "null" (-1)) "y"
    defaultValue := colCell cm row "default" (-1)
    primaryKey := cellEqLower (colCell cm row "primary_key" (-1)) "y"
    uniqueKey := cellEqLower (colCell cm row "unique_key" (-1)) "y"
    check := colCell cm row "check" (-1)
    expression := colCell cm row "expression" (-1)
    comment := colCell cm row "comment" (-1)
    policyName := colCell cm row "policy_name" (-1) }

/-- `mapDescribeResultToColumns(result)`. -/
def mapDescribeResultToColumns (result : StatementResult) : PaginatedResponse Column :=
  match result.data, result.resultSetMetaData with
  | some data, some md =>
    let cm := buildColumnMap md.rowType
    let columns := data.map (mapColumnRow cm)
    { items := columns, count := columns.length,
      total := some md.numRows, hasMore := false }
  | _, _ => emptyPage

/-- The `Warehouse` entity; numeric columns are JS `number | undefined`. -/
structure Warehouse where
  name : String
  state : String
  type : Option String
  size : Option String
  minClusterCount : NumU
  maxClusterCount : NumU
  startedClusters : NumU
  running : NumU
  queued : NumU
  isDefault : Bool
  isCurrent : Bool
  autoSuspend : NumU
  autoResume : Bool
  available : Option String
  provisioning : Option String
  quiescing : Option String
  other : Option String
  createdOn : Option String
  resumedOn : Option String
  updatedOn : Option String
  owner : Option String
  comment : Option String
  resourceMonitor : Option String
  scalingPolicy : Option String
deriving DecidableEq

/-- The per-row body of `mapShowResultToWarehouses`. -/
def mapWarehouseRow (cm : String → Option Nat) (row : List String) : Warehouse :=
  { name := strOr (colCell cm row "name" 0) ""
    state := strOr (colCell cm row "state" 1) "SUSPENDED"
    type := colCell cm row "type" (-1)
    size := colCell cm row "size" (-1)
    minClusterCount := numField (colCell cm row "min_cluster_count" (-1))
    maxClusterCount := numField (colCell cm row "max_cluster_count" (-1))
    startedClusters := numField (colCell cm row "started_clusters" (-1))
    running := numField (colCell cm row "running" (-1))
    queued := numField (colCell cm row "queued" (-1))
    isDefault := cellEqLower (colCell cm row "is_default" (-1)) "y"
    isCurrent := cellEqLower (colCell cm row "is_current" (-1)) "y"
    autoSuspend := numField (colCell cm row "auto_suspend" (-1))
    autoResume := cellEqLower (colCell cm row "auto_resume" (-1)) "true"
    available := colCell cm row "available" (-1)
    provisioning := colCell cm row "provisioning" (-1)
    quiescing := colCell cm row "quiescing" (-1)
    other := colCell cm row "other" (-1)
    createdOn := colCell cm row "created_on" (-1)
    resumedOn := colCell cm row "resumed_on" (-1)
    updatedOn := colCell cm row "updated_on" (-1)
    owner := colCell cm row "owner" (-1)
    comment := colCell cm row "comment" (-1)
    resourceMonitor := colCell cm row "resource_monitor" (-1)
    scalingPolicy := colCell cm row "scaling_policy" (-1) }

/-- `mapShowResultToWarehouses(result)`. -/
def mapShowResultToWarehouses (result : StatementResult) : PaginatedResponse Warehouse :=
  match result.data, result.resultSetMetaData with
  | some data, some md =>
    let cm := buildColumnMap md.rowType
    let warehouses := data.map (mapWarehouseRow cm)
    { items := warehouses, count := warehouses.length,
      total := some md.numRows, hasMore := false }
  | _, _ => emptyPage

/-- The fields shared by every error class (`errors.ts`, base `SnowflakeApiError`). -/
structure SnowflakeApiErrorData where
  message : String
  statusCode : Option Nat
  code : String
  retryable : Bool
  sqlState : Option String
deriving DecidableEq

/-- One thrown error value: the base fields plus the subclass-specific extras. -/
inductive SnowflakeError
  | rateLimit (base : SnowflakeApiErrorData) (retryAfterSeconds : NumU)
  | auth (base : SnowflakeApiErrorData)
  | timeout (base : SnowflakeApiErrorData) (statementHandle : Option String)
  | statement (base : SnowflakeApiErrorData) (statementHandle : Option String)
  | api (base : SnowflakeApiErrorData)
deriving DecidableEq

/-- The `SnowflakeApiError` constructor `(message, statusCode?, code?, retryable
= false, sqlState?)`: the stored code falls back to SNOWFLAKE_ERROR when the
argument is absent or empty; call sites omitting `retryable` pass `false`. -/
def mkSnowflakeApiError (message : String) (statusCode : Option Nat)
    (code : Option String) (retryable : Bool) (sqlState : Option String) :
    SnowflakeApiErrorData :=
  { message := message
    statusCode := statusCode
    code := strOr code "SNOWFLAKE_ERROR"
    retryable := retryable
    sqlState := sqlState }

/-- The `RateLimitError` constructor: `super(message, 429, RATE_LIMIT_EXCEEDED, true)`. -/
def mkRateLimitError (message : String) (retryAfterSeconds : NumU) : SnowflakeError :=
  .rateLimit (mkSnowflakeApiError message (some 429) (some "RATE_LIMIT_EXCEEDED") true none)
    retryAfterSeconds

/-- The `AuthenticationError` constructor: `super(message, 401, AUTHENTICATION_FAILED, false)`. -/
def mkAuthenticationError (message : String) : SnowflakeError :=
  .auth (mkSnowflakeApiError message (some 401) (some "AUTHENTICATION_FAILED") false none)

/-- The `TimeoutError` constructor: `super(message, 408, EXECUTION_TIMEOUT, true)`. -/
def mkTimeoutError (message : String) (statementHandle : Option String) : SnowflakeError :=
  .timeout (mkSnowflakeApiError message (some 408) (some "EXECUTION_TIMEOUT") true none)
    statementHandle

/-- The `StatementError` constructor:
`super(message, 422, code || STATEMENT_ERROR, false, sqlState)`. -/
def mkStatementError (message : String) (statementHandle : Option String)
    (sqlState : Option String) (code : Option String) : SnowflakeError :=
  .statement
    (mkSnowflakeApiError message (some 422) (some (strOr code "STATEMENT_ERROR")) false sqlState)
    statementHandle

/-- The base fields of a thrown error. -/
def errBase : SnowflakeError → SnowflakeApiErrorData
  | .rateLimit b _ => b
  | .auth b => b
  | .timeout b _ => b
  | .statement b _ => b
  | .api b => b

/-- The closed set of error kinds of the taxonomy. -/
inductive ErrKind
  | rateLimit
  | auth
  | timeout
  | statement
  | api
deriving DecidableEq

/-- Which error class a thrown error belongs to. -/
def errKind : SnowflakeError → ErrKind
  | .rateLimit _ _ => .rateLimit
  | .auth _ => .auth
  | .timeout _ _ => .timeout
  | .statement _ _ => .statement
  | .api _ => .api

/-- The `retryAfterSeconds` extra of a rate-limit error, when the error carries one. -/
def errRetryAfter : SnowflakeError → Option NumU
  | .rateLimit _ r => some r
  | _ => none

/-- The `statementHandle` extra of a timeout or statement error, when the error
carries one (the inner option is the handle itself, possibly absent). -/
def errHandle : SnowflakeError → Option (Option String)
  | .timeout _ h => some h
  | .statement _ h => some h
  | _ => none

/-- The surface of an HTTP response that the `request` helper inspects: the
status code, the Retry-After header (`none` = header absent), and the optional
fields the error paths read from the JSON-parsed body (`none` = absent field,
an unparsable body, or an empty fallback object). -/
structure HttpResponse where
  status : Nat
  retryAfterHeader : Option String := none
  bodyMessage : Option String := none
  bodyError : Option String := none
  bodyStatementHandle : Option String := none
  bodySqlState : Option String := none
  bodyCode : Option String := none
deriving DecidableEq

/-- `retryAfter ? parseInt(retryAfter, 10) : 60`: the suggested delay of a 429
response, defaulting to 60 when the header is absent (or empty, hence falsy). -/
def retryAfterSecondsOf (header : Option String) : NumU :=
  match header with
  | some s => if s = "" then .val 60 else parseIntNum s
  | none => .val 60

/-- The error-classification cascade of the `request` helper: 429, then 401/403,
then 408, then 422, then any other non-2xx; a 2xx response raises nothing. -/
def requestClassify (r : HttpResponse) : Option SnowflakeError :=
  if r.status = 429 then
    some (mkRateLimitError "Rate limit exceeded" (retryAfterSecondsOf r.retryAfterHeader))
  else if r.status = 401 ∨ r.status = 403 then
    some (mkAuthenticationError "Authentication failed. Check your Snowflake account and JWT token.")
  else if r.status = 408 then
    some (mkTimeoutError (strOr r.bodyMessage "Statement execution timed out")
      r.bodyStatementHandle)
  else if r.status = 422 then
    some (mkStatementError (strOr r.bodyMessage "Statement execution failed")
      r.bodyStatementHandle r.bodySqlState r.bodyCode)
  else if ¬ (200 ≤ r.status ∧ r.status ≤ 299) then
    some (.api (mkSnowflakeApiError
      (strOr r.bodyMessage (strOr r.bodyError ("Snowflake API error: " ++ toString r.status)))
      (some r.status) none false none))
  else
    none

/-- Per-call tenant credentials (`env.ts`). -/
structure TenantCredentials where
  account : String
  token : String
  warehouse : Option String := none
  database : Option String := none
  schema : Option String := none
  role : Option String := none
deriving DecidableEq

/-- A bind variable of a parameterized statement. -/
structure BindVariable where
  type : String
  value : String
deriving DecidableEq

/-- A `StatementRequest` (`entities.ts`); record-typed fields are association lists. -/
structure StatementRequest where
  statement : String
  timeout : Option Int := none
  database : Option String := none
  schema : Option String := none
  warehouse : Option String := none
  role : Option String := none
  bindings : Option (List (String × BindVariable)) := none
  parameters : Option (List (String × String)) := none
deriving DecidableEq

/-- The JSON body POSTed to `/statements`; absent context fields are `none`. -/
structure StatementBody where
  statement : String
  timeout : Int
  database : Option String := none
  schema : Option String := none
  warehouse : Option String := none
  role : Option String := none
  bindings : Option (List (String × BindVariable)) := none
  parameters : Option (List (String × String)) := none
deriving DecidableEq

/-- `if (request.x || credentials.x) body.x = request.x || credentials.x`:
the context field of the request body, absent when both sources are falsy. -/
def contextField (reqVal credVal : Option String) : Option String :=
  if optTruthy (optOr reqVal credVal) then optOr reqVal credVal else none

/-- The request body built by `executeStatement` (and duplicated verbatim in
`executeStatementAsync`): statement, `timeout || 60`, the four context fields,
and pass-through bindings and parameters. -/
def buildStatementBody (credentials : TenantCredentials) (request : StatementRequest) :
    StatementBody :=
  { statement := request.statement
    timeout := numOr request.timeout 60
    database := contextField request.database credentials.database
    schema := contextField request.schema credentials.schema
    warehouse := contextField request.warehouse credentials.warehouse
    role := contextField request.role credentials.role
    bindings := request.bindings
    parameters := request.parameters }

/-- The body submitted by `executeStatement`. -/
def executeStatementBody (credentials : TenantCredentials) (request : StatementRequest) :
    StatementBody :=
  buildStatementBody credentials request

/-- The body submitted by `executeStatementAsync` (the source repeats the same
construction; only the `async=true` query parameter differs). -/
def executeStatementAsyncBody (credentials : TenantCredentials)
    (request : StatementRequest) : StatementBody :=
  buildStatementBody credentials request

/-- The transport-level headers carrying tenant identity (`none` = header absent). -/
structure RequestHeaders where
  account : Option String := none
  token : Option String := none
  warehouse : Option String := none
  database : Option String := none
  schema : Option String := none
  role : Option String := none
deriving DecidableEq

/-- `parseTenantCredentials(request)`: required headers coerce to a (possibly
empty) string via `|| ""`; optional headers coerce falsy values to `undefined`. -/
def parseTenantCredentials (h : RequestHeaders) : TenantCredentials :=
  { account := strOr h.account ""
    token := strOr h.token ""
    warehouse := optOr h.warehouse none
    database := optOr h.database none
    schema := optOr h.schema none
    role := optOr h.role none }

/-- The message thrown when the account header is missing. -/
def accountMissingMessage : String :=
  "Missing X-Snowflake-Account header. Provide your Snowflake account identifier."

/-- The message thrown when the token header is missing. -/
def tokenMissingMessage : String :=
  "Missing X-Snowflake-Token header. Provide your JWT token for authentication."

/-- `validateCredentials(credentials)`: checks the account first, then the token. -/
def validateCredentials (c : TenantCredentials) : Except String Unit :=
  if c.account = "" then .error accountMissingMessage
  else if c.token = "" then .error tokenMissingMessage
  else .ok ()

/-- Parse followed by validation, as the request handler chains them. -/
def extractCredentials (h : RequestHeaders) : Except String TenantCredentials :=
  match validateCredentials (parseTenantCredentials h) with
  | .ok _ => .ok (parseTenantCredentials h)
  | .error m => .error m

/-- `getWarehouseStatus(warehouseName)` applied to the statement result of its
SHOW WAREHOUSES LIKE query: an empty mapped item list raises a 404 NOT_FOUND
`SnowflakeApiError`, otherwise the first item is returned. -/
def getWarehouseStatus (warehouseName : String) (result : StatementResult) :
    Except SnowflakeError Warehouse :=
  match (mapShowResultToWarehouses result).items with
  | [] => .error (.api (mkSnowflakeApiError
      ("Warehouse '" ++ warehouseName ++ "' not found") (some 404) (some "NOT_FOUND")
      false none))
  | w :: _ => .ok w

/-- Follows the words of the specification: whether resultSetMetaData's
partitionInfo reports that a partition beyond the first exists. Used only to
compare the code's `hasMore` against the spec's claimed meaning. -/
def specFurtherPartitionExists (result : StatementResult) : Bool :=
  match result.resultSetMetaData with
  | some md =>
    match md.partitionInfo with
    | some ps => decide (1 < ps.length)
    | none => false
  | none => false

/-- A statement result whose partitionInfo reports two partitions. -/
def multiPartitionMeta : ResultSetMetaData :=
  { numRows := 2
    partitionInfo := some [{ rowCount := 1 }, { rowCount := 1 }]
    rowType := [{ name := "name" }] }

/-- A single-row SHOW DATABASES result carrying the two-partition metadata. -/
def multiPartitionResult : StatementResult :=
  { statementHandle := "h1"
    status := .success
    resultSetMetaData := some multiPartitionMeta
    data := some [["DB1"]] }

/-- A statement result with neither data nor metadata. -/
def emptyResult : StatementResult :=
  { statementHandle := "h0", status := .success }

/-- The synthetic SHOW WAREHOUSES response of the round-trip property. -/
def warehouseFixture : StatementResult :=
  { statementHandle := "h7"
    status := .success
    resultSetMetaData := some
      { numRows := 1
        rowType := [{ name := "name" }, { name := "state" }, { name := "size" },
          { name := "running" }, { name := "queued" }] }
    data := some [["WH_XS", "SUSPENDED", "XSMALL", "0", "0"]] }

/-- A 429 response carrying a Retry-After header of 30 seconds. -/
def resp429 : HttpResponse :=
  { status := 429, retryAfterHeader := some "30" }

/-- Credentials whose tenant default database is ANALYTICS. -/
def cexCredentials : TenantCredentials :=
  { account := "acct", token := "tok", database := some "ANALYTICS" }

/-- A request whose explicit database is the empty string and whose timeout is 0. -/
def cexRequest : StatementRequest :=
  { statement := "SELECT 1", timeout := some 0, database := some "" }

/-- The error-taxonomy contract of the `request` helper at one response:
exactly one error is raised, and its kind, retryability and carried fields are
determined by the status code as the specification's table states. -/
def requestTaxonomyAt (r : HttpResponse) : Prop :=
  ∃ e, requestClassify r = some e ∧
    (r.status = 429 →
      errKind e = ErrKind.rateLimit ∧ (errBase e).retryable = true ∧
      (errBase e).statusCode = some 429 ∧
      (r.retryAfterHeader = none → errRetryAfter e = some (NumU.val 60)) ∧
      (∀ s, r.retryAfterHeader = some s → s ≠ "" → errRetryAfter e = some (parseIntNum s))) ∧
    ((r.status = 401 ∨ r.status = 403) →
      errKind e = ErrKind.auth ∧ (errBase e).retryable = false) ∧
    (r.status = 408 →
      errKind e = ErrKind.timeout ∧ (errBase e).retryable = true ∧
      errHandle e = some r.bodyStatementHandle) ∧
    (r.status = 422 →
      errKind e = ErrKind.statement ∧ (errBase e).retryable = false ∧
      errHandle e = some r.bodyStatementHandle ∧ (errBase e).sqlState = r.bodySqlState ∧
      (∀ c, r.bodyCode = some c → c ≠ "" → (errBase e).code = c)) ∧
    (r.status ≠ 429 → r.status ≠ 401 → r.status ≠ 403 → r.status ≠ 408 → r.status ≠ 422 →
      errKind e = ErrKind.api ∧ (errBase e).statusCode = some r.status ∧
      (errBase e).retryable = false)

/-- The pagination invariant of one mapped list response: count equals the item
count, one item per data row, total from numRows, and hasMore false. -/
def pageCountInv {T : Type} (p : PaginatedResponse T) (d : List (List String))
    (md : ResultSetMetaData) : Prop :=
  p.count = p.items.length ∧ p.items.length = d.length ∧
  p.total = some md.numRows ∧ p.hasMore = false

/-- The precedence contract of one context field of the statement body: a
truthy request value wins, else a truthy credential default, else the field is
absent. -/
def contextFieldSpec (reqVal credVal out : Option String) : Prop :=
  (optTruthy reqVal = true → out = reqVal) ∧
  (optTruthy reqVal = false → optTruthy credVal = true → out = credVal) ∧
  (optTruthy reqVal = false → optTruthy credVal = false → out = none)

theorem strOr_empty_iff (x : Option String) : strOr x "" = "" ↔ optTruthy x = false := by
  cases x with
  | none => simp [strOr, optTruthy]
  | some s => by_cases hs : s = "" <;> simp [strOr, optTruthy, hs]

theorem strOr_ne_empty (a : Option String) (d : String) (hd : d ≠ "") : strOr a d ≠ "" := by
  cases a with
  | none => exact hd
  | some s => by_cases hs : s = "" <;> simp [strOr, hs, hd]

theorem optTruthy_of_msgIncludes (m : Option String) (pat : String)
    (hp : pat.toList.isEmpty = false) (h : msgIncludes m pat = true) :
    optTruthy m = true := by
  cases m with
  | none => simp [msgIncludes] at h
  | some s =>
    by_cases hs : s = ""
    · subst hs
      exfalso
      simp [msgIncludes, strIncludes, strToLower, includesAux] at h
      rw [show pat.toList = pat.data from rfl, h] at hp
      simp at hp
    · simp [optTruthy, hs]

theorem contextField_cases (a b : Option String) :
    (optTruthy a = true → contextField a b = a) ∧
    (optTruthy a = false → optTruthy b = true → contextField a b = b) ∧
    (optTruthy a = false → optTruthy b = false → contextField a b = none) := by
  refine ⟨fun h => ?_, fun h1 h2 => ?_, fun h1 h2 => ?_⟩
  · simp [contextField, optOr, h]
  · simp [contextField, optOr, h1, h2]
  · simp [contextField, optOr, h1, h2]

theorem buildColumnMapFrom_eq_none (cols : List ColumnMeta) (idx : Nat) (key : String)
    (h : ∀ c ∈ cols, strToLower c.name ≠ key) :
    buildColumnMapFrom cols idx key = none := by
  induction cols generalizing idx with
  | nil => rfl
  | cons c rest ih =>
    simp only [buildColumnMapFrom]
    rw [ih _ (fun x hx => h x (List.mem_cons_of_mem _ hx))]
    simp [h c (List.mem_cons_self _ _)]

theorem buildColumnMapFrom_spec (cols : List ColumnMeta) (idx : Nat) (key : String)
    (i : Nat) (hi : i < cols.length)
    (hnd : (cols.map (fun c => strToLower c.name)).Nodup)
    (hk : strToLower (cols.get ⟨i, hi⟩).name = key) :
    buildColumnMapFrom cols idx key = some (idx + i) := by
  induction cols generalizing idx i with
  | nil => exact absurd hi (by simp)
  | cons c rest ih =>
    have hnd2 := List.nodup_cons.mp
      (show (strToLower c.name :: rest.map (fun x => strToLower x.name)).Nodup from hnd)
    cases i with
    | zero =>
      have hkey : strToLower c.name = key := hk
      have hrest : ∀ x ∈ rest, strToLower x.name ≠ key := by
        intro x hx hxk
        exact hnd2.1
          ((hxk.trans hkey.symm) ▸ List.mem_map_of_mem (fun y => strToLower y.name) hx)
      simp only [buildColumnMapFrom]
      rw [buildColumnMapFrom_eq_none rest (idx + 1) key hrest]
      simp [hkey]
    | succ j =>
      have hi' : j < rest.length := Nat.lt_of_succ_lt_succ (by simpa using hi)
      have hk' : strToLower (rest.get ⟨j, hi'⟩).name = key := hk
      have step := ih (idx + 1) j hi' hnd2.2 hk'
      simp only [buildColumnMapFrom, step]
      congr 1
      omega

/-- C1 (counterexample): with a status-polling URL present and a message
containing a success indicator, `mapStatus` returns success, not running — the
status-URL check does not take precedence over the success-message check. -/
theorem mapStatus_success_message_beats_statusUrl :
    optTruthy (some "https://acct.snowflakecomputing.com/api/v2/statements/01b") = true ∧
    mapStatus (some "https://acct.snowflakecomputing.com/api/v2/statements/01b")
      (some "Statement executed successfully.") = StatementStatus.success ∧
    StatementStatus.success ≠ StatementStatus.running := by
  refine ⟨rfl, rfl, by decide⟩

/-- C1 (amended): `mapStatus` classifies with the success-message check first
(also firing when both inputs are falsy), then the status-URL check, then the
failure-indicator check, and success otherwise: the status-URL check takes
precedence over the failure-message inspection but not over the
success-message inspection. -/
theorem mapStatus_classification (u m : Option String) :
    (msgIncludes m "success" = true → mapStatus u m = StatementStatus.success) ∧
    (optTruthy u = false → optTruthy m = false → mapStatus u m = StatementStatus.success) ∧
    (msgIncludes m "success" = false → optTruthy u = true →
      mapStatus u m = StatementStatus.running) ∧
    (msgIncludes m "success" = false → optTruthy u = false →
      (msgIncludes m "failed" = true ∨ msgIncludes m "error" = true) →
      mapStatus u m = StatementStatus.failed_with_error) ∧
    (msgIncludes m "success" = false → optTruthy u = false →
      msgIncludes m "failed" = false → msgIncludes m "error" = false →
      mapStatus u m = StatementStatus.success) := by
  unfold mapStatus
  refine ⟨fun h1 => ?_, fun h1 h2 => ?_, fun h1 h2 => ?_, fun h1 h2 h3 => ?_,
    fun h1 h2 h3 h4 => ?_⟩
  · simp [h1]
  · simp [h1, h2]
  · simp [h1, h2]
  · rcases h3 with h3 | h3 <;>
      simp [h1, h2, h3, optTruthy_of_msgIncludes m _ (by decide) h3]
  · simp [h1, h2, h3, h4]

/-- C1 (witness): a falsy status URL and a message carrying the word error
classify as failed_with_error. -/
theorem mapStatus_classification_witness :
    mapStatus none (some "Compilation error in statement") =
      StatementStatus.failed_with_error :=
  (mapStatus_classification none (some "Compilation error in statement")).2.2.2.1
    (by decide) (by decide) (Or.inr (by decide))

/-- C6 (counterexample): when two columns share a lowercased name, lookup of a
casing variant of the first column's name resolves to the position of the last
such column, not the first one's own position. -/
theorem buildColumnMap_last_duplicate_wins :
    ¬ (∀ (rt : List ColumnMeta) (i : Nat) (hi : i < rt.length) (v : String),
        strToLower v = strToLower (rt.get ⟨i, hi⟩).name →
        buildColumnMap rt (strToLower v) = some i) := by
  intro h
  have h0 := h [{ name := "Name" }, { name := "NAME" }] 0 (by decide) "Name" (by decide)
  exact absurd h0 (by decide)

/-- C6 (amended): when the lowercased column names of the rowType are pairwise
distinct, looking up any casing variant of a column's name (lowercased, as
every consumer of the map does) resolves to that column's position; with
duplicated lowercased names the last occurrence wins. -/
theorem buildColumnMap_case_insensitive (rt : List ColumnMeta)
    (hnd : (rt.map (fun c => strToLower c.name)).Nodup)
    (i : Nat) (hi : i < rt.length) (v : String)
    (hv : strToLower v = strToLower (rt.get ⟨i, hi⟩).name) :
    buildColumnMap rt (strToLower v) = some i := by
  unfold buildColumnMap
  rw [hv]
  simpa using buildColumnMapFrom_spec rt 0 (strToLower (rt.get ⟨i, hi⟩).name) i hi hnd rfl

/-- C6 (witness): the variants State and STATE of the second column resolve to
index 1 in a duplicate-free rowType. -/
theorem buildColumnMap_case_insensitive_witness :
    buildColumnMap [{ name := "Name" }, { name := "STATE" }] (strToLower "State") = some 1 :=
  buildColumnMap_case_insensitive [{ name := "Name" }, { name := "STATE" }]
    (by decide) 1 (by decide) "State" (by decide)

/-- C2: every non-2xx response raises exactly one taxonomy error whose kind,
retryability and carried fields are determined by the status code: 429 a
retryable rate-limit error with the Retry-After delay (default 60), 401 and 403
a non-retryable authentication error, 408 a retryable timeout error carrying
the statement handle, 422 a non-retryable statement error carrying handle,
sqlState and vendor code, and anything else a generic error carrying the raw
status code. -/
theorem request_error_taxonomy (r : HttpResponse)
    (h : r.status < 200 ∨ 300 ≤ r.status) : requestTaxonomyAt r := by
  unfold requestTaxonomyAt
  by_cases h429 : r.status = 429
  · refine ⟨mkRateLimitError "Rate limit exceeded" (retryAfterSecondsOf r.retryAfterHeader),
      ?_, ?_, ?_, ?_, ?_, ?_⟩
    · simp [requestClassify, h429]
    · intro _
      refine ⟨rfl, rfl, rfl, fun hh => ?_, fun s hs hne => ?_⟩
      · simp [errRetryAfter, mkRateLimitError, retryAfterSecondsOf, hh]
      · simp [errRetryAfter, mkRateLimitError, retryAfterSecondsOf, hs, hne]
    · intro hc; rcases hc with hc | hc <;> omega
    · intro hc; omega
    · intro hc; omega
    · intro hc _ _ _ _; exact absurd h429 hc
  · by_cases hauth : r.status = 401 ∨ r.status = 403
    · refine ⟨mkAuthenticationError
        "Authentication failed. Check your Snowflake account and JWT token.",
        ?_, ?_, ?_, ?_, ?_, ?_⟩
      · simp [requestClassify, h429, hauth]
      · intro hc; exact absurd hc h429
      · intro _; exact ⟨rfl, rfl⟩
      · intro hc; rcases hauth with hauth | hauth <;> omega
      · intro hc; rcases hauth with hauth | hauth <;> omega
      · intro _ h401 h403 _ _; rcases hauth with hauth | hauth
        · exact absurd hauth h401
        · exact absurd hauth h403
    · by_cases h408 : r.status = 408
      · refine ⟨mkTimeoutError (strOr r.bodyMessage "Statement execution timed out")
          r.bodyStatementHandle, ?_, ?_, ?_, ?_, ?_, ?_⟩
        · simp [requestClassify, h429, hauth, h408]
        · intro hc; exact absurd hc h429
        · intro hc; exact absurd hc hauth
        · intro _; exact ⟨rfl, rfl, rfl⟩
        · intro hc; omega
        · intro _ _ _ hc _; exact absurd h408 hc
      · by_cases h422 : r.status = 422
        · refine ⟨mkStatementError (strOr r.bodyMessage "Statement execution failed")
            r.bodyStatementHandle r.bodySqlState r.bodyCode, ?_, ?_, ?_, ?_, ?_, ?_⟩
          · simp [requestClassify, h429, hauth, h408, h422]
          · intro hc; exact absurd hc h429
          · intro hc; exact absurd hc hauth
          · intro hc; exact absurd hc h408
          · intro _
            refine ⟨rfl, rfl, rfl, rfl, fun c hc hcne => ?_⟩
            simp [mkStatementError, errBase, mkSnowflakeApiError, strOr, hc, hcne]
          · intro _ _ _ _ hc; exact absurd h422 hc
        · have h2xx : ¬ (200 ≤ r.status ∧ r.status ≤ 299) := by omega
          refine ⟨.api (mkSnowflakeApiError
            (strOr r.bodyMessage
              (strOr r.bodyError ("Snowflake API error: " ++ toString r.status)))
            (some r.status) none false none), ?_, ?_, ?_, ?_, ?_, ?_⟩
          · simp [requestClassify, h429, hauth, h408, h422, h2xx]
          · intro hc; exact absurd hc h429
          · intro hc; exact absurd hc hauth
          · intro hc; exact absurd hc h408
          · intro hc; exact absurd hc h422
          · intro _ _ _ _ _; exact ⟨rfl, rfl, rfl⟩

/-- C2 (witness): a 429 response with Retry-After 30 classifies as a retryable
rate-limit error whose delay parses from the header. -/
theorem request_error_taxonomy_witness : requestTaxonomyAt resp429 :=
  request_error_taxonomy resp429 (Or.inr (by decide))

/-- C3 (counterexample): the databases mapper reports hasMore false even when
partitionInfo reports a further partition, so hasMore is not equivalent to the
existence of a further partition. -/
theorem hasMore_ignores_partitionInfo :
    (mapShowResultToDatabases multiPartitionResult).hasMore = false ∧
    specFurtherPartitionExists multiPartitionResult = true ∧
    ¬ (((mapShowResultToDatabases multiPartitionResult).hasMore = true) ↔
       (specFurtherPartitionExists multiPartitionResult = true)) := by
  refine ⟨rfl, rfl, fun hiff => ?_⟩
  exact absurd (hiff.mpr rfl) (by decide)

/-- C3 (amended): when a list result carries data and metadata, every list
mapper returns count equal to the item count, one item per data row, and total
from numRows; hasMore is always false for these single-partition list commands,
regardless of partitionInfo. -/
theorem list_mapping_invariants (r : StatementResult) (database schema : String)
    (d : List (List String)) (md : ResultSetMetaData)
    (hd : r.data = some d) (hm : r.resultSetMetaData = some md) :
    pageCountInv (mapShowResultToDatabases r) d md ∧
    pageCountInv (mapShowResultToSchemas r database) d md ∧
    pageCountInv (mapShowResultToTables r database schema) d md ∧
    pageCountInv (mapShowResultToViews r database schema) d md ∧
    pageCountInv (mapDescribeResultToColumns r) d md ∧
    pageCountInv (mapShowResultToWarehouses r) d md := by
  refine ⟨?_, ?_, ?_, ?_, ?_, ?_⟩ <;>
    simp [pageCountInv, mapShowResultToDatabases, mapShowResultToSchemas,
      mapShowResultToTables, mapShowResultToViews, mapDescribeResultToColumns,
      mapShowResultToWarehouses, hd, hm]

/-- C3 (witness): the invariant at the concrete one-row fixture. -/
theorem list_mapping_invariants_witness :
    pageCountInv (mapShowResultToDatabases multiPartitionResult) [["DB1"]]
      multiPartitionMeta :=
  (list_mapping_invariants multiPartitionResult "D" "S" [["DB1"]] multiPartitionMeta
    rfl rfl).1

/-- C4: every mapper returns the empty response on a result lacking data or
metadata, and a row shorter than a positional fallback index yields an
undefined optional field (shown for the databases mapper, whose created_on
fallback is index 1 and whose owner fallback is index -1), never an error. -/
theorem mappers_total_on_degenerate :
    (∀ (r : StatementResult) (database schema : String),
      r.data = none ∨ r.resultSetMetaData = none →
      mapShowResultToDatabases r = emptyPage ∧
      mapShowResultToSchemas r database = emptyPage ∧
      mapShowResultToTables r database schema = emptyPage ∧
      mapShowResultToViews r database schema = emptyPage ∧
      mapDescribeResultToColumns r = emptyPage ∧
      mapShowResultToWarehouses r = emptyPage) ∧
    (∀ (rt : List ColumnMeta) (row : List String),
      buildColumnMap rt "created_on" = none → row.length ≤ 1 →
      (mapDatabaseRow (buildColumnMap rt) row).createdOn = none) ∧
    (∀ (rt : List ColumnMeta) (row : List String),
      buildColumnMap rt "owner" = none →
      (mapDatabaseRow (buildColumnMap rt) row).owner = none) := by
  refine ⟨?_, ?_, ?_⟩
  · intro r database schema h
    obtain ⟨sh, st, md, dat, su, ms, sq, cd⟩ := r
    rcases h with h | h
    · cases h
      exact ⟨rfl, rfl, rfl, rfl, rfl, rfl⟩
    · cases h
      cases dat <;> exact ⟨rfl, rfl, rfl, rfl, rfl, rfl⟩
  · intro rt row h hlen
    simp [mapDatabaseRow, colCell, idxOr, h, cellAt]
    exact hlen
  · intro rt row h
    simp [mapDatabaseRow, colCell, idxOr, h, cellAt]

/-- C4 (witness): a result with neither data nor metadata maps to the empty
response. -/
theorem mappers_total_on_degenerate_witness :
    mapShowResultToDatabases emptyResult = emptyPage :=
  (mappers_total_on_degenerate.1 emptyResult "D" "S" (Or.inl rfl)).1

/-- C5 (counterexample): a present-but-empty explicit database does not win
over the tenant default, and a present-but-zero timeout is replaced by 60: JS
falsiness, not presence, decides the fallback. -/
theorem statement_body_falsy_request_values_fall_back :
    cexRequest.database = some "" ∧
    (executeStatementBody cexCredentials cexRequest).database = some "ANALYTICS" ∧
    (some "ANALYTICS" : Option String) ≠ some "" ∧
    cexRequest.timeout = some 0 ∧
    (executeStatementBody cexCredentials cexRequest).timeout = 60 ∧ (60 : Int) ≠ 0 := by
  exact ⟨rfl, rfl, by decide, rfl, rfl, by decide⟩

/-- C5 (amended): for each of database, schema, warehouse and role the body
contains the request's value when that value is truthy (present and
non-empty), else the credential default when truthy, else no field at all; the
timeout equals the request's timeout when non-zero and defaults to 60 when
absent or zero; the async path builds the identical body. -/
theorem statement_body_context_precedence (c : TenantCredentials) (r : StatementRequest) :
    contextFieldSpec r.database c.database (executeStatementBody c r).database ∧
    contextFieldSpec r.schema c.schema (executeStatementBody c r).schema ∧
    contextFieldSpec r.warehouse c.warehouse (executeStatementBody c r).warehouse ∧
    contextFieldSpec r.role c.role (executeStatementBody c r).role ∧
    (∀ n : Int, r.timeout = some n → n ≠ 0 → (executeStatementBody c r).timeout = n) ∧
    ((r.timeout = none ∨ r.timeout = some 0) → (executeStatementBody c r).timeout = 60) ∧
    executeStatementAsyncBody c r = executeStatementBody c r := by
  refine ⟨contextField_cases r.database c.database, contextField_cases r.schema c.schema,
    contextField_cases r.warehouse c.warehouse, contextField_cases r.role c.role,
    ?_, ?_, rfl⟩
  · intro n hn hne
    simp [executeStatementBody, buildStatementBody, numOr, hn, hne]
  · rintro (h | h) <;> simp [executeStatementBody, buildStatementBody, numOr, h]

/-- C5 (witness): the zero timeout of the fixture request is replaced by 60. -/
theorem statement_body_context_precedence_witness :
    (executeStatementBody cexCredentials cexRequest).timeout = 60 :=
  (statement_body_context_precedence cexCredentials cexRequest).2.2.2.2.2.1 (Or.inr rfl)

/-- C7: the synthetic SHOW WAREHOUSES response with columns name, state, size,
running, queued and the single row WH_XS, SUSPENDED, XSMALL, 0, 0 maps to
exactly one warehouse named WH_XS in state SUSPENDED whose running and queued
counts are the number 0 — present, not undefined. -/
theorem warehouse_round_trip :
    ∃ w : Warehouse, (mapShowResultToWarehouses warehouseFixture).items = [w] ∧
      w.name = "WH_XS" ∧ w.state = "SUSPENDED" ∧ w.size = some "XSMALL" ∧
      w.running = NumU.val 0 ∧ w.queued = NumU.val 0 ∧
      w.running ≠ NumU.undefined ∧ w.queued ≠ NumU.undefined := by
  refine ⟨_, rfl, rfl, rfl, rfl, rfl, rfl, by decide, by decide⟩

/-- C8: credential extraction succeeds exactly when the account and token
headers are present and non-empty; a missing account is reported first (also
when the token is missing too), a missing token is reported when only it is
missing, and absent optional headers pass through as undefined. -/
theorem credentials_extraction (h : RequestHeaders) :
    ((∃ c, extractCredentials h = Except.ok c) ↔
      (optTruthy h.account = true ∧ optTruthy h.token = true)) ∧
    (optTruthy h.account = false →
      extractCredentials h = Except.error accountMissingMessage) ∧
    (optTruthy h.account = true → optTruthy h.token = false →
      extractCredentials h = Except.error tokenMissingMessage) ∧
    (∀ c, extractCredentials h = Except.ok c →
      (h.warehouse = none → c.warehouse = none) ∧
      (h.database = none → c.database = none) ∧
      (h.schema = none → c.schema = none) ∧
      (h.role = none → c.role = none)) := by
  cases hA : optTruthy h.account with
  | false =>
    have he : extractCredentials h = Except.error accountMissingMessage := by
      simp [extractCredentials, validateCredentials, parseTenantCredentials,
        strOr_empty_iff, hA]
    refine ⟨⟨fun hc => ?_, fun hc => ?_⟩, fun _ => he, fun h1 => ?_, fun c hc => ?_⟩
    · obtain ⟨c, hc⟩ := hc
      rw [he] at hc
      cases hc
    · exact absurd hc.1 (by simp [hA])
    · exact absurd h1 (by simp [hA])
    · rw [he] at hc
      cases hc
  | true =>
    cases hT : optTruthy h.token with
    | false =>
      have he : extractCredentials h = Except.error tokenMissingMessage := by
        simp [extractCredentials, validateCredentials, parseTenantCredentials,
          strOr_empty_iff, hA, hT]
      refine ⟨⟨fun hc => ?_, fun hc => ?_⟩, fun h1 => ?_, fun _ _ => he, fun c hc => ?_⟩
      · obtain ⟨c, hc⟩ := hc
        rw [he] at hc
        cases hc
      · exact absurd hc.2 (by simp [hT])
      · exact absurd h1 (by simp [hA])
      · rw [he] at hc
        cases hc
    | true =>
      have he : extractCredentials h = Except.ok (parseTenantCredentials h) := by
        simp [extractCredentials, validateCredentials, parseTenantCredentials,
          strOr_empty_iff, hA, hT]
      refine ⟨⟨fun _ => ⟨rfl, rfl⟩, fun _ => ⟨_, he⟩⟩, fun h1 => ?_, fun _ h1 => ?_,
        fun c hc => ?_⟩
      · exact absurd h1 (by simp [hA])
      · exact absurd h1 (by simp [hT])
      · rw [he] at hc
        cases hc
        refine ⟨fun hw => ?_, fun hd => ?_, fun hs => ?_, fun hr => ?_⟩
        · simp [parseTenantCredentials, optOr, hw]
        · simp [parseTenantCredentials, optOr, hd]
        · simp [parseTenantCredentials, optOr, hs]
        · simp [parseTenantCredentials, optOr, hr]

/-- C8 (witness): with both required headers missing, the failure names the
account header. -/
theorem credentials_extraction_witness :
    extractCredentials { account := none, token := none } =
      Except.error accountMissingMessage :=
  (credentials_extraction { account := none, token := none }).2.1 rfl

/-- C9: getWarehouseStatus raises a non-retryable 404 NOT_FOUND error exactly
when the mapped SHOW WAREHOUSES LIKE result has no items, and otherwise returns
the first mapped warehouse. -/
theorem warehouse_lookup_promotes_missing (warehouseName : String) (r : StatementResult) :
    ((mapShowResultToWarehouses r).items = [] →
      ∃ b, getWarehouseStatus warehouseName r = Except.error (SnowflakeError.api b) ∧
        b.code = "NOT_FOUND" ∧ b.statusCode = some 404 ∧ b.retryable = false) ∧
    (∀ w t, (mapShowResultToWarehouses r).items = w :: t →
      getWarehouseStatus warehouseName r = Except.ok w) ∧
    ((∃ e, getWarehouseStatus warehouseName r = Except.error e) ↔
      (mapShowResultToWarehouses r).items = []) := by
  refine ⟨?_, ?_, ?_, ?_⟩
  · intro hnil
    exact ⟨mkSnowflakeApiError ("Warehouse '" ++ warehouseName ++ "' not found")
      (some 404) (some "NOT_FOUND") false none,
      by simp [getWarehouseStatus, hnil], rfl, rfl, rfl⟩
  · intro w t hcons
    simp [getWarehouseStatus, hcons]
  · rintro ⟨e, he⟩
    cases hitems : (mapShowResultToWarehouses r).items with
    | nil => rfl
    | cons w t =>
      rw [show getWarehouseStatus warehouseName r = Except.ok w by
        simp [getWarehouseStatus, hitems]] at he
      cases he
  · intro hnil
    exact ⟨SnowflakeError.api (mkSnowflakeApiError
      ("Warehouse '" ++ warehouseName ++ "' not found") (some 404) (some "NOT_FOUND")
      false none), by simp [getWarehouseStatus, hnil]⟩

/-- C9 (witness): the NOT_FOUND error at an empty result. -/
theorem warehouse_lookup_promotes_missing_witness :
    ∃ b, getWarehouseStatus "WH_MISSING" emptyResult = Except.error (SnowflakeError.api b) ∧
      b.code = "NOT_FOUND" ∧ b.statusCode = some 404 ∧ b.retryable = false :=
  (warehouse_lookup_promotes_missing "WH_MISSING" emptyResult).1 rfl

/-- C10: every mapped warehouse has a non-empty state; with the state column
absent from the column map and the fallback cell at index 1 missing or empty
the state defaults to SUSPENDED, and with the name column absent and the cell
at index 0 missing or empty the name defaults to the empty string. -/
theorem warehouse_state_never_empty :
    (∀ (r : StatementResult) (w : Warehouse),
      w ∈ (mapShowResultToWarehouses r).items → w.state ≠ "") ∧
    (∀ (cm : String → Option Nat) (row : List String),
      cm "state" = none → (cellAt row 1 = none ∨ cellAt row 1 = some "") →
      (mapWarehouseRow cm row).state = "SUSPENDED") ∧
    (∀ (cm : String → Option Nat) (row : List String),
      cm "name" = none → (cellAt row 0 = none ∨ cellAt row 0 = some "") →
      (mapWarehouseRow cm row).name = "") := by
  refine ⟨?_, ?_, ?_⟩
  · intro r w hw
    obtain ⟨sh, st, md, dat, su, ms, sq, cd⟩ := r
    cases dat with
    | none => simp [mapShowResultToWarehouses, emptyPage] at hw
    | some d =>
      cases md with
      | none => simp [mapShowResultToWarehouses, emptyPage] at hw
      | some m =>
        simp [mapShowResultToWarehouses] at hw
        obtain ⟨row, _, rfl⟩ := hw
        exact strOr_ne_empty _ _ (by decide)
  · intro cm row h hcell
    rcases hcell with hc | hc <;>
      simp [mapWarehouseRow, colCell, idxOr, h, hc, strOr]
  · intro cm row h hcell
    rcases hcell with hc | hc <;>
      simp [mapWarehouseRow, colCell, idxOr, h, hc, strOr]

/-- C10 (witness): the empty row under an empty column map yields state
SUSPENDED. -/
theorem warehouse_state_never_empty_witness :
    (mapWarehouseRow (buildColumnMap []) []).state = "SUSPENDED" :=
  warehouse_state_never_empty.2.1 (buildColumnMap []) [] rfl (Or.inl rfl)

end Snowflake
